import Mathlib

/-!
Shallow embedding of the `pyselmc1` linear-guide driver (`pyselmc1/device.py`)
and proofs about its command-dispatch engine, acknowledgement waiter,
command codec and position codec.

Modelling conventions:
* Python floats are embedded as rationals (`ℚ`); the claims under study are
  about exact arithmetic expressions, never about binary rounding of floats.
* The serial channel is embedded as a trace: each call of `receive_string`
  yields the next `(line, t)` pair, where `line` is the decoded string
  (possibly `""` on a transport short-read timeout) and `t` is the wall-clock
  value `time()` observed at the deadline check that follows the read.
* Exceptions are embedded as an error sum (`Except PyErr`); `none` in the
  result type marks a trace too short to decide the call (the real loop would
  keep polling).
-/

set_option autoImplicit false

namespace Pyselmc1

/-- Exception kinds raised by `device.py`: `TimeoutError` from the waiter,
`ConnectionError` from retry exhaustion, the generic MC1 device-error
`Exception` carrying the error-code character, and `TypeError` from
evaluating `time0 + None`. -/
inductive PyErr where
  | timeout
  | conn
  | mc1 (code : Char)
  | typeErr
deriving DecidableEq

/-- Outcome of `wait_for_ack`: payload on success, error otherwise;
`none` means the modelled trace ended before the call resolved. -/
abbrev AckRes := Option (Except PyErr String)

/-- Outcome of `send_dnc_cmd`: the Python method returns `rec[1:]` for a
blocking success, `None` for a non-blocking call (it falls off the end),
or raises. -/
abbrev DncRes := Option (Except PyErr (Option String))

/-- One attempt environment: the wall-clock value `time()` captured at entry
of `wait_for_ack` (`time0`), and the read trace consumed by its loop. -/
abbrev Attempt := ℚ × List (String × ℚ)

/-- Embedding of `Device.wait_for_ack`.  Each loop iteration reads one line,
then evaluates `(timeout is not None) & (time() >= time0+timeout)`.  Because
`&` evaluates both operands, `time0 + None` raises `TypeError` when
`timeout` is `None`.  Otherwise: deadline exceeded raises `TimeoutError`;
an empty line continues the loop; a line starting with `'0'` returns the
rest of the line; any other line raises the MC1 error with its first
character as code. -/
def wait_for_ack (timeout : Option ℚ) (time0 : ℚ) : List (String × ℚ) → AckRes
  | [] => none
  | (line, t) :: rest =>
    match timeout with
    | none => some (Except.error PyErr.typeErr)
    | some tmo =>
      if time0 + tmo ≤ t then some (Except.error PyErr.timeout)
      else if line = "" then wait_for_ack timeout time0 rest
      else if line.front = '0' then some (Except.ok (line.drop 1))
      else some (Except.error (PyErr.mc1 line.front))

/-- Embedding of the blocking branch of `Device.send_dnc_cmd`.  Attempt `k`
uses environment `env k`; the result carries the total number of frame
transmissions performed (each recursive call writes the frame once before
waiting).  Only `TimeoutError` is caught and retried: with
`retry_attempts = 0` it turns into `ConnectionError`, all other errors
propagate after a single transmission. -/
def blocking_dispatch (timeout : Option ℚ) (env : ℕ → Attempt) : ℕ → ℕ → DncRes × ℕ
  | 0, k =>
    match wait_for_ack timeout (env k).1 (env k).2 with
    | some (Except.ok p) => (some (Except.ok (some p)), 1)
    | some (Except.error PyErr.timeout) => (some (Except.error PyErr.conn), 1)
    | some (Except.error e) => (some (Except.error e), 1)
    | none => (none, 1)
  | r + 1, k =>
    match wait_for_ack timeout (env k).1 (env k).2 with
    | some (Except.ok p) => (some (Except.ok (some p)), 1)
    | some (Except.error PyErr.timeout) =>
      ((blocking_dispatch timeout env r (k + 1)).1,
        (blocking_dispatch timeout env r (k + 1)).2 + 1)
    | some (Except.error e) => (some (Except.error e), 1)
    | none => (none, 1)

/-- Embedding of `Device.send_dnc_cmd`: transmit the frame (counted), then if
`blocking` wait for the acknowledgement with retry-on-timeout, else return
`None` at once. -/
def send_dnc_cmd (blocking : Bool) (timeout : Option ℚ) (retry_attempts : ℕ)
    (env : ℕ → Attempt) (k : ℕ) : DncRes × ℕ :=
  if blocking then blocking_dispatch timeout env retry_attempts k
  else (some (Except.ok none), 1)

/-- Rendering of `'%.d' % device_id` for a non-negative id.  CPython prints
at least one digit for the value 0 even under precision 0, so this is plain
decimal rendering (verified against CPython 3.11). -/
def formatDeviceId (device_id : ℕ) : String := Nat.repr device_id

/-- Frame string built by `send_dnc_cmd`: `'@%.d' % self.device_id + cmd + arg`. -/
def dncFrame (device_id : ℕ) (cmd arg : String) : String :=
  "@" ++ formatDeviceId device_id ++ cmd ++ arg

/-- Embedding of `Device.send_string`: the bytes written are the string plus
the `'\r'` line terminator (ASCII encoding is the identity on these strings). -/
def send_string (s : String) : String := s ++ "\r"

/-- Value of one hexadecimal digit as accepted by `int(-, 16)`:
`'0'`-`'9'`, `'a'`-`'f'`, `'A'`-`'F'`. -/
def hexDigitVal (c : Char) : Option ℕ :=
  if 48 ≤ c.toNat ∧ c.toNat ≤ 57 then some (c.toNat - 48)
  else if 97 ≤ c.toNat ∧ c.toNat ≤ 102 then some (c.toNat - 87)
  else if 65 ≤ c.toNat ∧ c.toNat ≤ 70 then some (c.toNat - 55)
  else none

/-- Horner accumulation of hex digits, `none` on the first invalid digit. -/
def hexAcc : ℕ → List Char → Option ℕ
  | a, [] => some a
  | a, c :: cs =>
    match hexDigitVal c with
    | none => none
    | some d => hexAcc (16 * a + d) cs

/-- Embedding of `int(s, 16)` on plain hexadecimal payloads (no sign, no
whitespace, no prefix — the forms a device payload can take); the empty
string raises `ValueError`, embedded as `none`. -/
def parseHex (s : String) : Option ℕ :=
  match s.data with
  | [] => none
  | _ => hexAcc 0 s.data

/-- Embedding of the step-decoding part of `Device.get_pos`: parse the payload
as unsigned hex, then subtract `1 << len*4` (that is `2 ^ (4*len)`) when the
value is `>= 1 << len*4` — the threshold exactly as written in the source. -/
def get_pos_steps (s : String) : Option ℤ :=
  match parseHex s with
  | none => none
  | some u =>
    if 2 ^ (4 * s.length) ≤ (u : ℤ) then some ((u : ℤ) - 2 ^ (4 * s.length))
    else some ((u : ℤ))

/-- Modelled from the spec: the decoder as the specification words it —
subtract `1 << bit_width` when `u >= 1 << (bit_width - 1)`, with
`bit_width = 4 * len` (standard two's-complement sign extension). -/
def decode_signed_hex_spec (s : String) : Option ℤ :=
  match parseHex s with
  | none => none
  | some u =>
    if 2 ^ (4 * s.length - 1) ≤ (u : ℤ) then some ((u : ℤ) - 2 ^ (4 * s.length))
    else some ((u : ℤ))

/-- Embedding of Python 3 `round` on the rationals: round half to even
(bankers rounding). -/
def pyRound (x : ℚ) : ℤ :=
  if x - ⌊x⌋ < 1 / 2 then ⌊x⌋
  else if 1 / 2 < x - ⌊x⌋ then ⌊x⌋ + 1
  else if ⌊x⌋ % 2 = 0 then ⌊x⌋ else ⌊x⌋ + 1

/-- Conversion used by `move_relative` / `move_absolute`:
`round(meters * steps_per_meter)`. -/
def meters_to_steps (m s : ℚ) : ℤ := pyRound (m * s)

/-- Conversion used by `get_pos`: `steps / steps_per_meter`. -/
def steps_to_meters (n : ℤ) (s : ℚ) : ℚ := (n : ℚ) / s

/-- Session state of `Device` (`__init__` stores these; the serial handle is
modelled separately as the trace argument of the dispatcher). -/
structure Device where
  rail_length : ℚ
  steps_per_meter : ℚ
  device_id : ℕ

/-- Class attribute `Device.default_timeout = 5`. -/
def default_timeout : ℚ := 5

/-- Class attribute `Device.default_retry_attempts = 3`. -/
def default_retry_attempts : ℕ := 3

/-- Class attribute `Device.homing_velocity = 0.1` (fixed HW setting). -/
def homing_velocity : ℚ := 1 / 10

/-- Argument tuple a facade operation passes to `send_dnc_cmd`. -/
structure DncCall where
  cmd : String
  arg : String
  blocking : Bool
  timeout : Option ℚ
  retry_attempts : ℕ

/-- `Device.init`: `send_dnc_cmd('1', '0', blocking, default_timeout, default_retry_attempts)`. -/
def init_call (blocking : Bool) : DncCall :=
  ⟨"1", "0", blocking, some default_timeout, default_retry_attempts⟩

/-- `Device.move_relative`: distance/velocity rounded to steps, timeout
`default_timeout + abs(distance)/velocity`, and `retry_attempts = 0`. -/
def move_relative_call (d : Device) (distance velocity : ℚ) (blocking : Bool) : DncCall :=
  ⟨"a",
    toString (pyRound (distance * d.steps_per_meter)) ++ "," ++
      toString (pyRound (velocity * d.steps_per_meter)),
    blocking, some (default_timeout + |distance| / velocity), 0⟩

/-- `Device.read_port`. -/
def read_port_call (n_port : ℤ) : DncCall :=
  ⟨"b", toString n_port, true, some default_timeout, default_retry_attempts⟩

/-- `Device.write_port`. -/
def write_port_call (n_port value : ℤ) (blocking : Bool) : DncCall :=
  ⟨"B", toString n_port ++ "," ++ toString value, blocking, some default_timeout,
    default_retry_attempts⟩

/-- `Device.clear_display_row`. -/
def clear_display_row_call (n_row : ℤ) (blocking : Bool) : DncCall :=
  ⟨"l", toString n_row, blocking, some default_timeout, default_retry_attempts⟩

/-- `Device.print_to_display`. -/
def print_to_display_call (n_row n_column : ℤ) (text : String) (blocking : Bool) : DncCall :=
  ⟨"L", toString n_row ++ "," ++ toString n_column ++ "," ++ text, blocking,
    some default_timeout, default_retry_attempts⟩

/-- `Device.move_absolute`: `position0` is the result of the preceding blocking
`get_pos` round trip; timeout `default_timeout + abs(position-position0)/velocity`. -/
def move_absolute_call (d : Device) (position position0 velocity : ℚ) (blocking : Bool) : DncCall :=
  ⟨"M",
    toString (pyRound (position * d.steps_per_meter)) ++ "," ++
      toString (pyRound (velocity * d.steps_per_meter)),
    blocking, some (default_timeout + |position - position0| / velocity),
    default_retry_attempts⟩

/-- `Device.get_pos` dispatch parameters. -/
def get_pos_call : DncCall :=
  ⟨"P", "", true, some default_timeout, default_retry_attempts⟩

/-- `Device.homing`: worst-case timeout `default_timeout + rail_length / homing_velocity`. -/
def homing_call (d : Device) (blocking : Bool) : DncCall :=
  ⟨"r", "1", blocking, some (default_timeout + d.rail_length / homing_velocity),
    default_retry_attempts⟩

/-- `Device.get_version_info` dispatch parameters. -/
def get_version_info_call : DncCall :=
  ⟨"V", "", true, some default_timeout, default_retry_attempts⟩

end Pyselmc1

deriving instance DecidableEq for Except

namespace Pyselmc1

/-- On a trace of only empty reads whose clock eventually passes the absolute
deadline, the waiter raises `TimeoutError`. -/
theorem wait_for_ack_all_empty (tmo time0 : ℚ) :
    ∀ trace : List (String × ℚ),
      (∀ p ∈ trace, p.1 = "") → (∃ p ∈ trace, time0 + tmo ≤ p.2) →
      wait_for_ack (some tmo) time0 trace = some (Except.error PyErr.timeout) := by
  intro trace
  induction trace with
  | nil =>
    intro _ hpast
    simp at hpast
  | cons hd tl ih =>
    intro hempty hpast
    obtain ⟨line, t⟩ := hd
    by_cases h : time0 + tmo ≤ t
    · simp [wait_for_ack, h]
    · have hline : line = "" := hempty (line, t) (List.mem_cons_self _ _)
      obtain ⟨p, hp, hle⟩ := hpast
      rcases List.mem_cons.mp hp with heq | htl
      · exfalso
        apply h
        rw [heq] at hle
        exact hle
      · have htail := ih (fun q hq => hempty q (List.mem_cons_of_mem _ hq)) ⟨p, htl, hle⟩
        simp [wait_for_ack, h, hline, htail]

/-- When every one of the first `r + 1` attempts times out, the dispatcher
transmits `r + 1` times and raises `ConnectionError`. -/
theorem blocking_dispatch_all_timeouts (tmo : ℚ) (env : ℕ → Attempt) :
    ∀ r k : ℕ,
      (∀ j, j ≤ r → wait_for_ack (some tmo) (env (k + j)).1 (env (k + j)).2
          = some (Except.error PyErr.timeout)) →
      blocking_dispatch (some tmo) env r k = (some (Except.error PyErr.conn), r + 1) := by
  intro r
  induction r with
  | zero =>
    intro k h
    have h0 := h 0 (Nat.le_refl 0)
    rw [Nat.add_zero] at h0
    simp [blocking_dispatch, h0]
  | succ r ih =>
    intro k h
    have h0 := h 0 (Nat.zero_le _)
    rw [Nat.add_zero] at h0
    have hrec := ih (k + 1) (fun j hj => by
      have hs := h (j + 1) (Nat.succ_le_succ hj)
      rwa [show k + (j + 1) = k + 1 + j by omega] at hs)
    simp [blocking_dispatch, h0, hrec]

/-- A digit accepted by `int(-, 16)` has value below 16. -/
theorem hexDigitVal_lt (c : Char) (d : ℕ) (h : hexDigitVal c = some d) : d < 16 := by
  unfold hexDigitVal at h
  split_ifs at h with h1 h2 h3 <;> simp_all <;> omega

/-- Horner accumulation bound: the parsed value stays below
`(a + 1) * 16 ^ digits`. -/
theorem hexAcc_lt : ∀ (cs : List Char) (a u : ℕ),
    hexAcc a cs = some u → u < (a + 1) * 16 ^ cs.length := by
  intro cs
  induction cs with
  | nil =>
    intro a u h
    simp [hexAcc] at h
    simp [h]
  | cons c cs ih =>
    intro a u h
    simp only [hexAcc] at h
    cases hd : hexDigitVal c with
    | none =>
      rw [hd] at h
      simp at h
    | some d =>
      rw [hd] at h
      have hd16 := hexDigitVal_lt c d hd
      have hb := ih (16 * a + d) u h
      simp only [List.length_cons]
      calc u < (16 * a + d + 1) * 16 ^ cs.length := hb
        _ ≤ (16 * (a + 1)) * 16 ^ cs.length :=
          Nat.mul_le_mul_right _ (by omega)
        _ = (a + 1) * 16 ^ (cs.length + 1) := by
          rw [pow_succ]
          ring

/-- A value parsed from an `n`-digit payload is below `16 ^ n`. -/
theorem parseHex_lt (s : String) (u : ℕ) (h : parseHex s = some u) :
    u < 16 ^ s.length := by
  unfold parseHex at h
  cases hs : s.data with
  | nil =>
    rw [hs] at h
    simp at h
  | cons c cs =>
    rw [hs] at h
    have hb := hexAcc_lt (c :: cs) 0 u h
    have hlen : s.length = (c :: cs).length := by
      rw [← hs]
      rfl
    rw [hlen]
    simpa using hb

/-- Bankers rounding moves a rational by at most one half. -/
theorem pyRound_abs_sub_le (x : ℚ) : |(pyRound x : ℚ) - x| ≤ 1 / 2 := by
  have h0 : (⌊x⌋ : ℚ) ≤ x := Int.floor_le x
  have h1 : x < ⌊x⌋ + 1 := Int.lt_floor_add_one x
  unfold pyRound
  split_ifs with hf hg hh <;> rw [abs_le] <;> constructor <;> push_cast <;> linarith

/-- Claim C1: a blocking dispatch with retry budget 2 whose channel yields only
empty reads (with the wall clock eventually passing each attempt's absolute
deadline) performs exactly 3 transmissions and then raises `ConnectionError`
("max retries exceeded"), an error distinct from the waiter's `TimeoutError`. -/
theorem C1_retries_exhausted (tmo : ℚ) (env : ℕ → Attempt)
    (hempty : ∀ k, k < 3 → ∀ p ∈ (env k).2, p.1 = "")
    (hpast : ∀ k, k < 3 → ∃ p ∈ (env k).2, (env k).1 + tmo ≤ p.2) :
    send_dnc_cmd true (some tmo) 2 env 0 = (some (Except.error PyErr.conn), 3) ∧
      PyErr.conn ≠ PyErr.timeout := by
  constructor
  · have h : ∀ j, j ≤ 2 → wait_for_ack (some tmo) (env (0 + j)).1 (env (0 + j)).2
        = some (Except.error PyErr.timeout) := by
      intro j hj
      have hj3 : 0 + j < 3 := by omega
      exact wait_for_ack_all_empty tmo (env (0 + j)).1 (env (0 + j)).2
        (hempty (0 + j) hj3) (hpast (0 + j) hj3)
    have hb := blocking_dispatch_all_timeouts tmo env 2 0 h
    simpa [send_dnc_cmd] using hb
  · decide

/-- Witness for C1 at a concrete channel: every read is empty at clock 2, past
the deadline 0 + 1. -/
theorem C1_retries_exhausted_witness :
    send_dnc_cmd true (some 1) 2 (fun _ => ((0 : ℚ), [("", (2 : ℚ))])) 0
      = (some (Except.error PyErr.conn), 3) ∧ PyErr.conn ≠ PyErr.timeout := by
  apply C1_retries_exhausted
  · intro k _ p hp
    simp only [List.mem_singleton] at hp
    rw [hp]
  · intro k _
    exact ⟨("", 2), by simp, by norm_num⟩

/-- Claim C2: the decoder in `get_pos` compares the parsed unsigned value
against `1 << 4*len`, which a parsed payload can never reach, so it never
sign-extends and always returns the unsigned value; the specified
two's-complement decoding differs already on the payload "F"
(code: 15, spec: -1). -/
theorem C2_get_pos_never_sign_extends :
    (∀ (s : String) (u : ℕ), parseHex s = some u → get_pos_steps s = some ((u : ℤ))) ∧
      get_pos_steps "F" = some 15 ∧ decode_signed_hex_spec "F" = some (-1) := by
  refine ⟨?_, by decide, by decide⟩
  intro s u h
  have hu : u < 16 ^ s.length := parseHex_lt s u h
  have hu2 : (u : ℤ) < 2 ^ (4 * s.length) := by
    have h16 : (2 : ℤ) ^ (4 * s.length) = 16 ^ s.length := by
      rw [pow_mul]
      norm_num
    rw [h16]
    exact_mod_cast hu
  simp [get_pos_steps, h, not_le.mpr hu2]

/-- Witness for C2: the dead sign-extension branch at the concrete payload "F". -/
theorem C2_get_pos_never_sign_extends_witness :
    get_pos_steps "F" = some (((15 : ℕ) : ℤ)) :=
  C2_get_pos_never_sign_extends.1 "F" 15 (by decide)

/-- Claim C3: the transmitted frame is `'@'`, the decimal device id, the
identifier, the argument, then `'\r'`; the id 0 is rendered as the digit
`'0'` (CPython renders `'%.d' % 0` as "0"). -/
theorem C3_wire_frame (device_id : ℕ) (cmd arg : String) :
    send_string (dncFrame device_id cmd arg)
        = "@" ++ Nat.repr device_id ++ cmd ++ arg ++ "\r" ∧
      send_string (dncFrame 0 cmd arg) = "@0" ++ cmd ++ arg ++ "\r" := by
  constructor
  · rfl
  · simp only [send_string, dncFrame, formatDeviceId]
    rw [show ("@" ++ Nat.repr 0 : String) = "@0" from by decide]

/-- Claim C4 (amended): a non-empty line starting with `'0'` is returned as
the payload only when the clock at that read's check is still before the
absolute deadline `time0 + timeout` (fixed at entry, never reset); the
deadline check runs on every iteration, before the line is classified, not
only on empty reads. -/
theorem C4_ok_only_before_deadline (tmo time0 t : ℚ) (line : String)
    (rest : List (String × ℚ))
    (ht : t < time0 + tmo) (hne : line ≠ "") (h0 : line.front = '0') :
    ∀ pre : List (String × ℚ), (∀ p ∈ pre, p.1 = "" ∧ p.2 < time0 + tmo) →
      wait_for_ack (some tmo) time0 (pre ++ (line, t) :: rest)
        = some (Except.ok (line.drop 1)) := by
  intro pre
  induction pre with
  | nil =>
    intro _
    simp [wait_for_ack, not_le.mpr ht, hne, h0]
  | cons hd tlp ih =>
    intro hpre
    obtain ⟨l2, t2⟩ := hd
    obtain ⟨hl2, ht2⟩ := hpre (l2, t2) (List.mem_cons_self _ _)
    have htail := ih (fun p hp => hpre p (List.mem_cons_of_mem _ hp))
    have hl2e : l2 = "" := hl2
    subst hl2e
    simp [wait_for_ack, not_le.mpr ht2, htail]

/-- Witness for C4 (amended): one early empty read, then the ack "0abc"
arriving before the deadline, returning "abc". -/
theorem C4_ok_only_before_deadline_witness :
    wait_for_ack (some 5) 0 ([("", 1)] ++ [("0abc", (1 : ℚ))])
      = some (Except.ok ("0abc".drop 1)) := by
  apply C4_ok_only_before_deadline 5 0 1 "0abc" [] (by norm_num) (by decide) (by decide)
  intro p hp
  simp only [List.mem_singleton] at hp
  rw [hp]
  exact ⟨rfl, by norm_num⟩

/-- Counterexample for C4 as stated: a read yielding the success line "0abc"
does not return its payload when the clock already passed the deadline -- the
deadline check fires first and raises `TimeoutError`. -/
theorem C4_late_ok_line_times_out_cex :
    wait_for_ack (some 1) 0 [("0abc", 2)] = some (Except.error PyErr.timeout) ∧
      some (Except.error PyErr.timeout) ≠ (some (Except.ok "abc") : AckRes) := by
  constructor
  · norm_num [wait_for_ack]
  · decide

/-- Claim C5 (amended): when the first read of a blocking dispatch yields a
non-empty line not starting with `'0'` and the clock at its check is still
before the deadline, the dispatch raises the MC1 device error carrying the
line's first character, after exactly 1 transmission and with no retry,
whatever the retry budget. -/
theorem C5_device_error_immediate (tmo time0 t : ℚ) (line : String)
    (rest : List (String × ℚ)) (env : ℕ → Attempt) (retry_attempts : ℕ)
    (henv : env 0 = (time0, (line, t) :: rest))
    (ht : t < time0 + tmo) (hne : line ≠ "") (h0 : line.front ≠ '0') :
    send_dnc_cmd true (some tmo) retry_attempts env 0
      = (some (Except.error (PyErr.mc1 line.front)), 1) := by
  have hack : wait_for_ack (some tmo) time0 ((line, t) :: rest)
      = some (Except.error (PyErr.mc1 line.front)) := by
    simp [wait_for_ack, not_le.mpr ht, hne, h0]
  cases retry_attempts with
  | zero => simp [send_dnc_cmd, blocking_dispatch, henv, hack]
  | succ r => simp [send_dnc_cmd, blocking_dispatch, henv, hack]

/-- Witness for C5 (amended): the device error line "3" read before the
deadline fails the dispatch at once, with retry budget 3 untouched. -/
theorem C5_device_error_immediate_witness :
    send_dnc_cmd true (some 1) 3 (fun _ => ((0 : ℚ), [("3", (0 : ℚ))])) 0
      = (some (Except.error (PyErr.mc1 "3".front)), 1) :=
  C5_device_error_immediate 1 0 0 "3" [] (fun _ => ((0 : ℚ), [("3", (0 : ℚ))])) 3
    rfl (by norm_num) (by decide) (by decide)

/-- Counterexample for C5 as stated: the first read yields the device error
line "3", but its check happens past the deadline, so the attempt times out
and IS retried -- two transmissions, not one. -/
theorem C5_late_device_error_retries_cex :
    send_dnc_cmd true (some 1) 3
        (fun k => if k = 0 then ((0 : ℚ), [("3", (5 : ℚ))]) else ((0 : ℚ), [("3", (0 : ℚ))])) 0
      = (some (Except.error (PyErr.mc1 '3')), 2) := by
  have h1 : ("3" : String) ≠ "" := by decide
  have h2 : ("3" : String).front = '3' := by decide
  have h3 : ('3' : Char) ≠ '0' := by decide
  norm_num [send_dnc_cmd, blocking_dispatch, wait_for_ack, h1, h2, h3]

/-- Claim C6: a non-blocking dispatch transmits the frame once and returns no
payload, independent of the channel trace (the waiter is never consulted). -/
theorem C6_nonblocking_fire_and_forget (timeout : Option ℚ) (retry_attempts k : ℕ)
    (env env2 : ℕ → Attempt) :
    send_dnc_cmd false timeout retry_attempts env k = (some (Except.ok none), 1) ∧
      send_dnc_cmd false timeout retry_attempts env k
        = send_dnc_cmd false timeout retry_attempts env2 k :=
  ⟨rfl, rfl⟩

/-- Claim C7: the homing operation passes the dispatcher exactly the timeout
`default_timeout + rail_length / homing_velocity`, with the fixed constant
`homing_velocity = 0.1`. -/
theorem C7_homing_timeout (d : Device) (blocking : Bool) :
    (homing_call d blocking).timeout
        = some (default_timeout + d.rail_length / homing_velocity) ∧
      homing_velocity = 1 / 10 :=
  ⟨rfl, rfl⟩

/-- Claim C8: converting meters to steps by `round(m * s)` and back by
division lands within half a step of the original value:
`|round(m*s)/s - m| <= 1/(2*s)` for positive `s`. -/
theorem C8_roundtrip_error_bound (m s : ℚ) (hs : 0 < s) :
    |steps_to_meters (meters_to_steps m s) s - m| ≤ 1 / (2 * s) := by
  have hs0 : s ≠ 0 := ne_of_gt hs
  have key : |(pyRound (m * s) : ℚ) - m * s| ≤ 1 / 2 := pyRound_abs_sub_le (m * s)
  have heq : steps_to_meters (meters_to_steps m s) s - m
      = ((pyRound (m * s) : ℚ) - m * s) / s := by
    unfold steps_to_meters meters_to_steps
    field_simp
    ring
  rw [heq, abs_div, abs_of_pos hs, show (1 : ℚ) / (2 * s) = 1 / 2 / s from (div_div 1 2 s).symm]
  gcongr

/-- Witness for C8 at `m = 1/3`, `s = 2`. -/
theorem C8_roundtrip_error_bound_witness :
    (0 : ℚ) < 2 ∧ |steps_to_meters (meters_to_steps (1 / 3) 2) 2 - 1 / 3| ≤ 1 / (2 * 2) :=
  ⟨by norm_num, C8_roundtrip_error_bound (1 / 3) 2 (by norm_num)⟩

/-- Claim C9: `move_relative` dispatches with retry budget 0 -- one timeout
raises `ConnectionError` after a single transmission -- while init, port I/O,
display, absolute move, homing and version query all use the default budget 3. -/
theorem C9_move_relative_no_retry (d : Device) (distance velocity : ℚ) (b : Bool)
    (n_port value n_row n_column : ℤ) (text : String) (position position0 vel2 : ℚ)
    (tmo : ℚ) (env : ℕ → Attempt)
    (h : wait_for_ack (some tmo) (env 0).1 (env 0).2 = some (Except.error PyErr.timeout)) :
    (move_relative_call d distance velocity b).retry_attempts = 0 ∧
      send_dnc_cmd true (some tmo)
          (move_relative_call d distance velocity b).retry_attempts env 0
        = (some (Except.error PyErr.conn), 1) ∧
      (init_call b).retry_attempts = 3 ∧
      (read_port_call n_port).retry_attempts = 3 ∧
      (write_port_call n_port value b).retry_attempts = 3 ∧
      (clear_display_row_call n_row b).retry_attempts = 3 ∧
      (print_to_display_call n_row n_column text b).retry_attempts = 3 ∧
      (move_absolute_call d position position0 vel2 b).retry_attempts = 3 ∧
      (homing_call d b).retry_attempts = 3 ∧
      get_version_info_call.retry_attempts = 3 ∧
      default_retry_attempts = 3 := by
  refine ⟨rfl, ?_, rfl, rfl, rfl, rfl, rfl, rfl, rfl, rfl, rfl⟩
  show send_dnc_cmd true (some tmo) 0 env 0 = (some (Except.error PyErr.conn), 1)
  simp [send_dnc_cmd, blocking_dispatch, h]

/-- Witness for C9 at a concrete session and a channel with one empty read past
the deadline. -/
theorem C9_move_relative_no_retry_witness :
    (move_relative_call ⟨1, 1000, 0⟩ (1 / 2) (1 / 10) true).retry_attempts = 0 ∧
      send_dnc_cmd true (some 1)
          (move_relative_call ⟨1, 1000, 0⟩ (1 / 2) (1 / 10) true).retry_attempts
          (fun _ => ((0 : ℚ), [("", (5 : ℚ))])) 0
        = (some (Except.error PyErr.conn), 1) ∧
      (init_call true).retry_attempts = 3 ∧
      (read_port_call 1).retry_attempts = 3 ∧
      (write_port_call 1 0 true).retry_attempts = 3 ∧
      (clear_display_row_call 1 true).retry_attempts = 3 ∧
      (print_to_display_call 1 1 "hi" true).retry_attempts = 3 ∧
      (move_absolute_call ⟨1, 1000, 0⟩ (1 / 2) 0 (1 / 10) true).retry_attempts = 3 ∧
      (homing_call ⟨1, 1000, 0⟩ true).retry_attempts = 3 ∧
      get_version_info_call.retry_attempts = 3 ∧
      default_retry_attempts = 3 :=
  C9_move_relative_no_retry ⟨1, 1000, 0⟩ (1 / 2) (1 / 10) true 1 0 1 1 "hi" (1 / 2) 0 (1 / 10)
    1 (fun _ => ((0 : ℚ), [("", (5 : ℚ))])) (by norm_num [wait_for_ack])

/-- Claim C10: with `timeout` absent (`None`, the default of `send_dnc_cmd`),
the waiter raises `TypeError` on its first iteration -- evaluating
`time0 + None` in the non-short-circuiting `&` -- after a single
transmission, whatever the first line contains and whatever the budget. -/
theorem C10_none_timeout_type_error (retry_attempts k : ℕ) (env : ℕ → Attempt)
    (line : String) (t : ℚ) (rest : List (String × ℚ))
    (henv : (env k).2 = (line, t) :: rest) :
    send_dnc_cmd true none retry_attempts env k
        = (some (Except.error PyErr.typeErr), 1) ∧
      wait_for_ack none (env k).1 ((line, t) :: rest)
        = some (Except.error PyErr.typeErr) := by
  have hack : wait_for_ack none (env k).1 ((line, t) :: rest)
      = some (Except.error PyErr.typeErr) := rfl
  refine ⟨?_, hack⟩
  cases retry_attempts with
  | zero => simp [send_dnc_cmd, blocking_dispatch, henv, hack]
  | succ r => simp [send_dnc_cmd, blocking_dispatch, henv, hack]

/-- Witness for C10: even a successful ack line "0abc" yields `TypeError`
when the timeout is absent. -/
theorem C10_none_timeout_type_error_witness :
    send_dnc_cmd true none 3 (fun _ => ((0 : ℚ), [("0abc", (0 : ℚ))])) 0
        = (some (Except.error PyErr.typeErr), 1) ∧
      wait_for_ack none ((0 : ℚ), [("0abc", (0 : ℚ))]).1 [("0abc", (0 : ℚ))]
        = some (Except.error PyErr.typeErr) :=
  C10_none_timeout_type_error 3 0 (fun _ => ((0 : ℚ), [("0abc", (0 : ℚ))])) "0abc" 0 [] rfl

end Pyselmc1
